import Mathlib

/-!
Verification development for the Auth-Gateway authentication / API-key core.

The embedding models:
* the JWT token service of `server/auth.ts` (`generateAccessToken`,
  `generateRefreshToken`, `verifyToken`, `authMiddleware`, `requireRole`);
  a JWT is modelled as a tamper-evident signed envelope carrying the
  payload, the signing secret and an absolute expiry timestamp, and
  verification checks the secret and the expiry exactly as `jwt.verify`
  checks signature and `exp`;
* the storage layer of `server/storage.ts` over list-based tables
  (`DatabaseStorage`: `getUser`, `getUserByUsername`, `getUserByEmail`,
  `createUser`, `updateUser`, `getAllUsers`, `getApiKey`,
  `getApiKeysByUser`, `createApiKey`, `deleteApiKey`);
* the HTTP route handlers of `server/routes.ts` (`/api/register`,
  `/api/login`, `/api/refresh`, `/api/user`, `/api/api-keys` GET, POST,
  DELETE, `/api/admin/users` GET, PATCH), including the SHA-256 hashing
  of raw API-key secrets (`hashApiKey` uses a full executable SHA-256).

Timestamps are integers in milliseconds (the unit of `Date.now()`); the
JWT relative expiries `24h` and `7d` are converted to milliseconds.
Nondeterministic inputs of the original code (the bcrypt hash of a
password, the 24 random bytes of an API-key secret, freshly generated
row ids, the current time) are passed to the model as explicit
parameters.
-/

/-! ## String helpers (JS `substring`, hex encoding, UTF-8 bytes) -/

/-- Model of JavaScript `s.substring(0, n)`: the first `n` characters. -/
def strTake (n : Nat) (s : String) : String :=
  String.mk (s.data.take n)

/-- Lower-case hexadecimal digit for `n < 16`. -/
def hexDigit (n : Nat) : Char :=
  if n < 10 then Char.ofNat (48 + n) else Char.ofNat (87 + n)

/-- Two lower-case hex characters per byte, as in the Node
`Buffer.toString("hex")` and the hex digest of `createHash`. -/
def bytesToHexChars : List Nat → List Char
  | [] => []
  | b :: rest => hexDigit (b / 16) :: hexDigit (b % 16) :: bytesToHexChars rest

def bytesToHex (bs : List Nat) : String :=
  String.mk (bytesToHexChars bs)

/-- UTF-8 encoding of one code point (Node strings are hashed as UTF-8). -/
def utf8Bytes (c : Char) : List Nat :=
  let n := c.toNat
  if n < 128 then [n]
  else if n < 2048 then [192 + n / 64, 128 + n % 64]
  else if n < 65536 then [224 + n / 4096, 128 + (n / 64) % 64, 128 + n % 64]
  else [240 + n / 262144, 128 + (n / 4096) % 64, 128 + (n / 64) % 64, 128 + n % 64]

def utf8Chars : List Char → List Nat
  | [] => []
  | c :: cs => utf8Bytes c ++ utf8Chars cs

/-- The UTF-8 byte sequence of a string. -/
def strUtf8 (s : String) : List Nat :=
  utf8Chars s.data

/-! ## SHA-256 (the `createHash("sha256")` digest of `routes.ts`) -/

/-- Word size constant: arithmetic is modulo `2 ^ 32`. -/
def w32 : Nat := 4294967296

def add32 (a b : Nat) : Nat := (a + b) % w32

def rotr32 (n x : Nat) : Nat :=
  ((x >>> n) ||| (x <<< (32 - n))) % w32

def notw32 (x : Nat) : Nat := 4294967295 ^^^ x

def smallSigma0 (x : Nat) : Nat := (rotr32 7 x) ^^^ (rotr32 18 x) ^^^ (x >>> 3)

def smallSigma1 (x : Nat) : Nat := (rotr32 17 x) ^^^ (rotr32 19 x) ^^^ (x >>> 10)

def bigSigma0 (x : Nat) : Nat := (rotr32 2 x) ^^^ (rotr32 13 x) ^^^ (rotr32 22 x)

def bigSigma1 (x : Nat) : Nat := (rotr32 6 x) ^^^ (rotr32 11 x) ^^^ (rotr32 25 x)

def chWord (x y z : Nat) : Nat := (x &&& y) ^^^ ((notw32 x) &&& z)

def majWord (x y z : Nat) : Nat := (x &&& y) ^^^ (x &&& z) ^^^ (y &&& z)

/-- The 64 round constants of SHA-256 (FIPS 180-4), written in
decimal. -/
def sha256K : List Nat :=
  [1116352408, 1899447441, 3049323471, 3921009573,
   961987163, 1508970993, 2453635748, 2870763221,
   3624381080, 310598401, 607225278, 1426881987,
   1925078388, 2162078206, 2614888103, 3248222580,
   3835390401, 4022224774, 264347078, 604807628,
   770255983, 1249150122, 1555081692, 1996064986,
   2554220882, 2821834349, 2952996808, 3210313671,
   3336571891, 3584528711, 113926993, 338241895,
   666307205, 773529912, 1294757372, 1396182291,
   1695183700, 1986661051, 2177026350, 2456956037,
   2730485921, 2820302411, 3259730800, 3345764771,
   3516065817, 3600352804, 4094571909, 275423344,
   430227734, 506948616, 659060556, 883997877,
   958139571, 1322822218, 1537002063, 1747873779,
   1955562222, 2024104815, 2227730452, 2361852424,
   2428436474, 2756734187, 3204031479, 3329325298]

/-- The eight working variables of the compression function. -/
structure Hash8 where
  a : Nat
  b : Nat
  c : Nat
  d : Nat
  e : Nat
  f : Nat
  g : Nat
  h : Nat
deriving Repr, DecidableEq

def sha256Init : Hash8 :=
  { a := 1779033703, b := 3144134277, c := 1013904242, d := 2773480762,
    e := 1359893119, f := 2600822924, g := 528734635, h := 1541459225 }

/-- Extend the message schedule by one word.  The schedule is kept in
reverse order (most recent word first), so `w[i-2]` is at index 1,
`w[i-7]` at index 6, `w[i-15]` at index 14 and `w[i-16]` at index 15. -/
def schedExtend (w : List Nat) : List Nat :=
  add32 (add32 (smallSigma1 (w.getD 1 0)) (w.getD 6 0))
        (add32 (smallSigma0 (w.getD 14 0)) (w.getD 15 0)) :: w

/-- The full 64-word message schedule of one block (16 words in). -/
def sha256Schedule (block : List Nat) : List Nat :=
  ((List.range 48).foldl (fun w _ => schedExtend w) block.reverse).reverse

def sha256Round (s : Hash8) (kw : Nat × Nat) : Hash8 :=
  let t1 := add32 s.h (add32 (bigSigma1 s.e) (add32 (chWord s.e s.f s.g) (add32 kw.1 kw.2)))
  let t2 := add32 (bigSigma0 s.a) (majWord s.a s.b s.c)
  { a := add32 t1 t2, b := s.a, c := s.b, d := s.c,
    e := add32 s.d t1, f := s.e, g := s.f, h := s.g }

def sha256Compress (s0 : Hash8) (block : List Nat) : Hash8 :=
  let s := (sha256K.zip (sha256Schedule block)).foldl sha256Round s0
  { a := add32 s0.a s.a, b := add32 s0.b s.b, c := add32 s0.c s.c, d := add32 s0.d s.d,
    e := add32 s0.e s.e, f := add32 s0.f s.f, g := add32 s0.g s.g, h := add32 s0.h s.h }

/-- Big-endian byte decomposition: `n` bytes of `x`. -/
def beBytes : Nat → Nat → List Nat
  | 0, _ => []
  | n + 1, x => beBytes n (x / 256) ++ [x % 256]

/-- SHA-256 padding: `0x80`, zeros, then the 64-bit big-endian bit length,
bringing the message to a multiple of 64 bytes. -/
def sha256Pad (msg : List Nat) : List Nat :=
  msg ++ [128] ++ List.replicate ((119 - msg.length % 64) % 64) 0 ++ beBytes 8 (msg.length * 8)

/-- Group bytes into big-endian 32-bit words. -/
def bytesToWords : List Nat → List Nat
  | b0 :: b1 :: b2 :: b3 :: rest =>
      (((b0 * 256 + b1) * 256 + b2) * 256 + b3) :: bytesToWords rest
  | _ => []

/-- Split a word sequence into 16-word blocks. -/
def chunk16 (ws : List Nat) : List (List Nat) :=
  if ws = [] then [] else ws.take 16 :: chunk16 (ws.drop 16)
termination_by ws.length
decreasing_by
  rename_i hne
  simp [List.length_drop]
  exact Nat.pos_of_ne_zero (fun h0 => hne (List.eq_nil_of_length_eq_zero h0))

/-- The eight final hash words as 32 big-endian bytes. -/
def hash8Bytes (s : Hash8) : List Nat :=
  beBytes 4 s.a ++ beBytes 4 s.b ++ beBytes 4 s.c ++ beBytes 4 s.d ++
  beBytes 4 s.e ++ beBytes 4 s.f ++ beBytes 4 s.g ++ beBytes 4 s.h

/-- SHA-256 digest of a byte sequence, as a lower-case hex string —
the model of `createHash("sha256").update(key).digest("hex")`. -/
def sha256Hex (msg : List Nat) : String :=
  bytesToHex (hash8Bytes ((chunk16 (bytesToWords (sha256Pad msg))).foldl sha256Compress sha256Init))

/-! ## Data model (`shared/schema.ts`) -/

/-- A row of the `users` table. -/
structure User where
  id : String
  username : String
  email : String
  password : String
  role : String
  isActive : Bool
  createdAt : Int
deriving Repr, DecidableEq

/-- A row of the `api_keys` table. -/
structure ApiKey where
  id : String
  userId : String
  name : String
  keyHash : String
  keyPrefix : String
  permissions : List String
  rateLimit : Int
  isActive : Bool
  lastUsedAt : Option Int
  expiresAt : Option Int
  createdAt : Int
deriving Repr, DecidableEq

/-! ## Token service (`server/auth.ts`) -/

/-- The JWT claims of this application. -/
structure JwtPayload where
  userId : String
  username : String
  role : String
  type : String
deriving Repr, DecidableEq

/-- A JWT as a tamper-evident envelope: either a payload signed with a
secret and carrying an absolute expiry (milliseconds), or an arbitrary
string that is not a well-formed signed token. -/
inductive Token where
  | signed (payload : JwtPayload) (secret : String) (exp : Int)
  | malformed (raw : String)
deriving Repr, DecidableEq

/-- `"24h"` in milliseconds. -/
def ACCESS_TOKEN_EXPIRY_MS : Int := 24 * 60 * 60 * 1000

/-- `"7d"` in milliseconds. -/
def REFRESH_TOKEN_EXPIRY_MS : Int := 7 * 24 * 60 * 60 * 1000

/-- `jwt.sign(payload, secret, { expiresIn })` at issuance time `issuedAt`. -/
def jwtSign (payload : JwtPayload) (secret : String) (issuedAt expiresIn : Int) : Token :=
  .signed payload secret (issuedAt + expiresIn)

def generateAccessToken (secret : String) (issuedAt : Int) (user : User) : Token :=
  jwtSign { userId := user.id, username := user.username, role := user.role, type := "access" }
    secret issuedAt ACCESS_TOKEN_EXPIRY_MS

def generateRefreshToken (secret : String) (issuedAt : Int) (user : User) : Token :=
  jwtSign { userId := user.id, username := user.username, role := user.role, type := "refresh" }
    secret issuedAt REFRESH_TOKEN_EXPIRY_MS

/-- `jwt.verify(token, JWT_SECRET)` wrapped in try/catch: `some` payload
when the signature matches the process secret and the token is not yet
expired, `none` otherwise (expired, malformed, or bad signature). -/
def verifyToken (secret : String) (now : Int) (t : Token) : Option JwtPayload :=
  match t with
  | .signed p s exp => if s = secret ∧ now < exp then some p else none
  | .malformed _ => none

/-- The `Authorization` header of a request as the middleware sees it:
absent, present but not of the shape `Bearer <token>`, or a bearer token. -/
inductive AuthHeader where
  | missing
  | notBearer (raw : String)
  | bearer (t : Token)
deriving Repr, DecidableEq

/-- Outcome of `authMiddleware`: an early JSON error response, or
`next()` with `userId` and `userRole` attached to the request. -/
inductive AuthResult where
  | reject (status : Nat) (message : String)
  | proceed (userId : String) (userRole : String)
deriving Repr, DecidableEq

def authMiddleware (secret : String) (now : Int) (h : AuthHeader) : AuthResult :=
  match h with
  | .missing => .reject 401 "No token provided"
  | .notBearer _ => .reject 401 "No token provided"
  | .bearer t =>
    match verifyToken secret now t with
    | none => .reject 401 "Invalid or expired token"
    | some payload =>
      if payload.type ≠ "access" then .reject 401 "Invalid or expired token"
      else .proceed payload.userId payload.role

/-- `requireRole(role)`: 403 unless the attached role matches exactly. -/
def requireRole (role : String) (userRole : String) : Option (Nat × String) :=
  if userRole ≠ role then some (403, "Insufficient permissions") else none

/-! ## Storage (`server/storage.ts`, `DatabaseStorage`) -/

/-- The persisted tables the authentication core touches. -/
structure AppState where
  users : List User
  apiKeys : List ApiKey
deriving Repr, DecidableEq

def getUser (users : List User) (id : String) : Option User :=
  users.find? (fun u => u.id == id)

def getUserByUsername (users : List User) (username : String) : Option User :=
  users.find? (fun u => u.username == username)

def getUserByEmail (users : List User) (email : String) : Option User :=
  users.find? (fun u => u.email == email)

/-- `insert(users).values(...)`: appends the new row. -/
def createUser (users : List User) (u : User) : List User :=
  users ++ [u]

/-- The `Partial<User>` patch the admin endpoint builds (only `role` and
`isActive` are ever put into `updateData`). -/
structure UserPatch where
  role : Option String
  isActive : Option Bool
deriving Repr, DecidableEq

def applyUserPatch (p : UserPatch) (u : User) : User :=
  { u with role := p.role.getD u.role, isActive := p.isActive.getD u.isActive }

/-- `update(users).set(data).where(eq(users.id, id)).returning()`:
updates the matching rows and returns the updated row, `none` when no
row matches. -/
def updateUser (users : List User) (id : String) (p : UserPatch) :
    Option User × List User :=
  ((users.find? (fun u => u.id == id)).map (applyUserPatch p),
   users.map (fun u => if u.id == id then applyUserPatch p u else u))

/-- `select from users orderBy desc(createdAt)`. -/
def getAllUsers (users : List User) : List User :=
  users.mergeSort (fun a b => decide (b.createdAt ≤ a.createdAt))

def getApiKey (keys : List ApiKey) (id : String) : Option ApiKey :=
  keys.find? (fun k => k.id == id)

/-- `select from apiKeys where userId = ... orderBy desc(createdAt)`. -/
def getApiKeysByUser (keys : List ApiKey) (userId : String) : List ApiKey :=
  (keys.filter (fun k => k.userId == userId)).mergeSort
    (fun a b => decide (b.createdAt ≤ a.createdAt))

def createApiKeyRow (keys : List ApiKey) (k : ApiKey) : List ApiKey :=
  keys ++ [k]

/-- `DatabaseStorage.deleteApiKey`: an UPDATE setting `isActive` to
false on the matching row — a soft revocation, not a row removal. -/
def deleteApiKey (keys : List ApiKey) (id : String) : List ApiKey :=
  keys.map (fun k => if k.id == id then { k with isActive := false } else k)

/-! ## JSON view of a user (the `{ password, ...rest }` destructuring) -/

/-- A JSON value, as far as the user payloads need. -/
inductive JVal where
  | str (s : String)
  | boolean (b : Bool)
  | num (n : Int)
deriving Repr, DecidableEq

/-- The JSON object of a full `User` row, every column included. -/
def userToJson (u : User) : List (String × JVal) :=
  [("id", .str u.id), ("username", .str u.username), ("email", .str u.email),
   ("password", .str u.password), ("role", .str u.role),
   ("isActive", .boolean u.isActive), ("createdAt", .num u.createdAt)]

/-- Rest-destructuring `const { f, ...rest } = obj`: every own field
except `f`. -/
def omitField (f : String) (obj : List (String × JVal)) : List (String × JVal) :=
  obj.filter (fun p => p.1 ≠ f)

/-- `const { password, ...userWithoutPassword } = user`. -/
def userWithoutPassword (u : User) : List (String × JVal) :=
  omitField "password" (userToJson u)

/-! ## Route handlers (`server/routes.ts`) -/

/-- The parsed body of `/api/register`, after `registerSchema.parse`
succeeded (username at least 3 characters, valid email, password at
least 6 characters). -/
structure RegisterInput where
  username : String
  email : String
  password : String
deriving Repr, DecidableEq

/-- The parsed body of `/api/login`. -/
structure LoginInput where
  username : String
  password : String
deriving Repr, DecidableEq

/-- Response of `/api/register` and `/api/login`: an error status with a
message, or `{ user, accessToken, refreshToken }`. -/
inductive AuthResponse where
  | error (status : Nat) (message : String)
  | ok (user : List (String × JVal)) (accessToken refreshToken : Token)
deriving Repr, DecidableEq

/-- The body of the `POST /api/register` handler after a successful
`registerSchema.parse`.  `newId` is the row id the database generates
and `hashedPassword` the bcrypt digest `hashPassword` returned for the
submitted password (bcrypt salts are random, so the digest is an input
of the model). -/
def registerCore (secret : String) (now : Int) (newId hashedPassword : String)
    (st : AppState) (d : RegisterInput) : AuthResponse × AppState :=
  match getUserByUsername st.users d.username with
  | some _ => (.error 400 "Username already exists", st)
  | none =>
    match getUserByEmail st.users d.email with
    | some _ => (.error 400 "Email already exists", st)
    | none =>
      let user : User :=
        { id := newId, username := d.username, email := d.email,
          password := hashedPassword, role := "user", isActive := true, createdAt := now }
      (.ok (userWithoutPassword user)
         (generateAccessToken secret now user) (generateRefreshToken secret now user),
       { st with users := createUser st.users user })

/-- The body of the `POST /api/login` handler after `loginSchema.parse`.
`comparePassword` is the bcrypt verification, passed in as a function. -/
def loginHandler (secret : String) (now : Int) (comparePassword : String → String → Bool)
    (st : AppState) (d : LoginInput) : AuthResponse :=
  match getUserByUsername st.users d.username with
  | none => .error 401 "Invalid credentials"
  | some user =>
    if !user.isActive then .error 401 "Account is deactivated"
    else if !(comparePassword d.password user.password) then .error 401 "Invalid credentials"
    else .ok (userWithoutPassword user)
        (generateAccessToken secret now user) (generateRefreshToken secret now user)

/-- Response of `POST /api/refresh`. -/
inductive RefreshResponse where
  | error (status : Nat) (message : String)
  | ok (accessToken refreshToken : Token)
deriving Repr, DecidableEq

/-- The `POST /api/refresh` handler; the `refreshToken` field of the body is
`none` when absent (JS falsiness of a missing field). -/
def refreshHandler (secret : String) (now : Int) (st : AppState)
    (body : Option Token) : RefreshResponse :=
  match body with
  | none => .error 400 "Refresh token required"
  | some rt =>
    match verifyToken secret now rt with
    | none => .error 401 "Invalid refresh token"
    | some payload =>
      if payload.type ≠ "refresh" then .error 401 "Invalid refresh token"
      else
        match getUser st.users payload.userId with
        | none => .error 401 "User not found or inactive"
        | some user =>
          if !user.isActive then .error 401 "User not found or inactive"
          else .ok (generateAccessToken secret now user) (generateRefreshToken secret now user)

/-- Response of the handlers that return one user object. -/
inductive UserResponse where
  | error (status : Nat) (message : String)
  | ok (user : List (String × JVal))
deriving Repr, DecidableEq

/-- The `GET /api/user` handler, after `authMiddleware` attached
`userId`. -/
def getUserHandler (st : AppState) (userId : String) : UserResponse :=
  match getUser st.users userId with
  | none => .error 404 "User not found"
  | some u => .ok (userWithoutPassword u)

/-- Response of `GET /api/admin/users`. -/
inductive UsersListResponse where
  | error (status : Nat) (message : String)
  | ok (users : List (List (String × JVal)))
deriving Repr, DecidableEq

/-- The `GET /api/admin/users` handler with its `requireRole("admin")`
gate (`userRole` was attached by `authMiddleware`). -/
def adminGetUsersHandler (st : AppState) (userRole : String) : UsersListResponse :=
  match requireRole "admin" userRole with
  | some (status, message) => .error status message
  | none => .ok ((getAllUsers st.users).map userWithoutPassword)

/-- The `PATCH /api/admin/users/:id` handler with its
`requireRole("admin")` gate. -/
def adminUpdateUserHandler (st : AppState) (userRole : String) (id : String)
    (body : UserPatch) : UserResponse × AppState :=
  match requireRole "admin" userRole with
  | some (status, message) => (.error status message, st)
  | none =>
    let r := updateUser st.users id body
    match r.1 with
    | none => (.error 404 "User not found", { st with users := r.2 })
    | some u => (.ok (userWithoutPassword u), { st with users := r.2 })

/-! ## API-key routes (`server/routes.ts`) -/

/-- `generateApiKey()`: the literal marker `sk_live_` followed by the
hex encoding of 24 random bytes (`randomBytes(24).toString("hex")`);
the random bytes are an input of the model. -/
def generateApiKey (bytes : List Nat) : String :=
  "sk_live_" ++ bytesToHex bytes

/-- `hashApiKey(key)`: SHA-256 hex digest of the raw key. -/
def hashApiKey (key : String) : String :=
  sha256Hex (strUtf8 key)

/-- The body of `POST /api/api-keys`; `name` is `none` when absent or
empty (JS falsiness of `!name` treats the empty string as missing),
`rateLimit` defaults to 1000 when absent. -/
structure CreateKeyBody where
  name : Option String
  rateLimit : Option Int
  expiresInDays : Option Int
deriving Repr, DecidableEq

/-- Lines 238-240 of the routes file:
`expiresInDays ? new Date(Date.now() + expiresInDays*24*60*60*1000) : null`.
A supplied value of `0` is falsy in JavaScript, so it takes the `null`
branch exactly like an absent field. -/
def computeExpiresAt (expiresInDays : Option Int) (now : Int) : Option Int :=
  match expiresInDays with
  | some d => if d ≠ 0 then some (now + d * 24 * 60 * 60 * 1000) else none
  | none => none

/-- Response of `POST /api/api-keys`: 201 with the persisted record plus
the one-time raw secret under the extra field `key`, or an error. -/
inductive CreateKeyResponse where
  | error (status : Nat) (message : String)
  | created (record : ApiKey) (key : String)
deriving Repr, DecidableEq

/-- The `POST /api/api-keys` handler (after `authMiddleware`); `bytes`
are the 24 random bytes of `randomBytes(24)`, `newId` the generated row
id, `now` the value of `Date.now()`. -/
def createApiKeyHandler (st : AppState) (userId : String) (body : CreateKeyBody)
    (bytes : List Nat) (newId : String) (now : Int) : CreateKeyResponse × AppState :=
  match body.name with
  | none => (.error 400 "Name is required", st)
  | some name =>
    if name = "" then (.error 400 "Name is required", st)
    else
      let rawKey := generateApiKey bytes
      let record : ApiKey :=
        { id := newId, userId := userId, name := name,
          keyHash := hashApiKey rawKey,
          keyPrefix := strTake 12 rawKey,
          permissions := [], rateLimit := body.rateLimit.getD 1000,
          isActive := true, lastUsedAt := none,
          expiresAt := computeExpiresAt body.expiresInDays now,
          createdAt := now }
      (.created record rawKey, { st with apiKeys := createApiKeyRow st.apiKeys record })

/-- Response of `GET /api/api-keys`: the owner-scoped records. -/
inductive ListKeysResponse where
  | error (status : Nat) (message : String)
  | ok (keys : List ApiKey)
deriving Repr, DecidableEq

/-- The `GET /api/api-keys` handler (after `authMiddleware`). -/
def listApiKeysHandler (st : AppState) (userId : String) : ListKeysResponse :=
  .ok (getApiKeysByUser st.apiKeys userId)

/-- Response of `DELETE /api/api-keys/:id`: 204 with no body, or an
error. -/
inductive DeleteKeyResponse where
  | error (status : Nat) (message : String)
  | noContent
deriving Repr, DecidableEq

/-- The `DELETE /api/api-keys/:id` handler (after `authMiddleware`):
404 when the key does not exist or belongs to another user, otherwise
soft-revocation through `deleteApiKey`. -/
def deleteApiKeyHandler (st : AppState) (userId : String) (id : String) :
    DeleteKeyResponse × AppState :=
  match getApiKey st.apiKeys id with
  | none => (.error 404 "API key not found", st)
  | some key =>
    if key.userId ≠ userId then (.error 404 "API key not found", st)
    else (.noContent, { st with apiKeys := deleteApiKey st.apiKeys id })


/-! ## Response observation helpers and witness fixtures -/

/-- Keys of the user object inside a register/login response. -/
def AuthResponse.userKeys : AuthResponse → List String
  | .error _ _ => []
  | .ok user _ _ => user.map Prod.fst

/-- Keys of the user object inside a single-user response. -/
def UserResponse.userKeys : UserResponse → List String
  | .error _ _ => []
  | .ok user => user.map Prod.fst

/-- Keys of all user objects inside an admin list response. -/
def UsersListResponse.userKeys : UsersListResponse → List String
  | .error _ _ => []
  | .ok users => (users.map (fun u => u.map Prod.fst)).flatten

/-- The persisted record of a creation response, when the response is a 201. -/
def CreateKeyResponse.recordOf : CreateKeyResponse → Option ApiKey
  | .error _ _ => none
  | .created record _ => some record

/-- A sample stored API key used by the concrete witnesses. -/
def sampleKey : ApiKey :=
  { id := "k1", userId := "A", name := "n", keyHash := "h", keyPrefix := "p",
    permissions := [], rateLimit := 100, isActive := true, lastUsedAt := none,
    expiresAt := none, createdAt := 0 }

/-- A sample stored state holding `sampleKey`, used by the concrete
witnesses. -/
def sampleState : AppState := ⟨[], [sampleKey]⟩


/-! ## Supporting lemmas -/

theorem strTake_length (n : Nat) (s : String) : (strTake n s).length = min n s.length := by
  show (s.data.take n).length = min n s.data.length
  simp

theorem bytesToHexChars_length (bs : List Nat) : (bytesToHexChars bs).length = 2 * bs.length := by
  induction bs with
  | nil => rfl
  | cons b rest ih => simp [bytesToHexChars, ih]; ring

theorem bytesToHex_length (bs : List Nat) : (bytesToHex bs).length = 2 * bs.length :=
  bytesToHexChars_length bs

theorem beBytes_length (n x : Nat) : (beBytes n x).length = n := by
  induction n generalizing x with
  | zero => rfl
  | succ m ih => simp [beBytes, ih]

theorem hash8Bytes_length (s : Hash8) : (hash8Bytes s).length = 32 := by
  simp [hash8Bytes, beBytes_length]

theorem sha256Hex_length (msg : List Nat) : (sha256Hex msg).length = 64 := by
  unfold sha256Hex
  rw [bytesToHex_length, hash8Bytes_length]

theorem generateApiKey_length (bytes : List Nat) (hb : bytes.length = 24) :
    (generateApiKey bytes).length = 56 := by
  unfold generateApiKey
  rw [String.length_append, bytesToHex_length, hb]
  decide

theorem filter_map_invariant {α : Type} (p : α → Bool) (f : α → α) (l : List α)
    (hpf : ∀ a, p (f a) = p a) (hfix : ∀ a, p a = true → f a = a) :
    (l.map f).filter p = l.filter p := by
  induction l with
  | nil => rfl
  | cons a rest ih =>
    rw [List.map_cons, List.filter_cons, List.filter_cons, hpf]
    cases hp : p a with
    | false => exact ih
    | true => rw [hfix a hp, ih]

theorem getApiKey_deleteApiKey (keys : List ApiKey) (id : String) :
    getApiKey (deleteApiKey keys id) id =
      (getApiKey keys id).map
        (fun k => if k.id == id then { k with isActive := false } else k) := by
  unfold getApiKey deleteApiKey
  have hpf : ((fun k : ApiKey => k.id == id) ∘
      (fun k => if k.id == id then { k with isActive := false } else k)) =
      (fun k : ApiKey => k.id == id) := by
    funext j
    by_cases h : (j.id == id) = true <;> simp [Function.comp, h]
  rw [List.find?_map, hpf]

theorem deleteApiKey_idem (keys : List ApiKey) (id : String) :
    deleteApiKey (deleteApiKey keys id) id = deleteApiKey keys id := by
  unfold deleteApiKey
  rw [List.map_map]
  apply List.map_congr_left
  intro j _
  by_cases h : (j.id == id) = true <;> simp [Function.comp, h]

theorem filter_ne_deleteApiKey (keys : List ApiKey) (id : String) :
    (deleteApiKey keys id).filter (fun j => j.id != id) =
      keys.filter (fun j => j.id != id) := by
  unfold deleteApiKey
  apply filter_map_invariant
  · intro a
    by_cases h : (a.id == id) = true <;> simp [h]
  · intro a ha
    have : (a.id == id) = false := by
      cases hcase : (a.id == id) with
      | false => rfl
      | true => rw [bne, hcase] at ha; exact absurd ha (by decide)
    simp [this]

theorem userWithoutPassword_keys (u : User) :
    (userWithoutPassword u).map Prod.fst =
      ["id", "username", "email", "role", "isActive", "createdAt"] := rfl


/-! ## Claim theorems -/

/-- Claim C1: verifying a token produced by `generateAccessToken` for user `u`
yields claims whose `userId`, `username` and `role` equal those of `u` and
whose `type` is `"access"`, provided the token has not expired. -/
theorem C1_access_token_roundtrip (secret : String) (u : User) (issuedAt now : Int)
    (hfresh : now < issuedAt + ACCESS_TOKEN_EXPIRY_MS) :
    verifyToken secret now (generateAccessToken secret issuedAt u) =
      some { userId := u.id, username := u.username, role := u.role, type := "access" } := by
  simp [verifyToken, generateAccessToken, jwtSign, hfresh]

/-- Witness for C1 at a concrete user and time. -/
theorem C1_access_token_roundtrip_witness :
    verifyToken "k" 5 (generateAccessToken "k" 0
        { id := "u1", username := "alice", email := "a@x.com", password := "hp",
          role := "user", isActive := true, createdAt := 0 }) =
      some { userId := "u1", username := "alice", role := "user", type := "access" } :=
  C1_access_token_roundtrip "k" _ 0 5 (by decide)

/-- Claim C2: an unexpired, correctly signed token whose claims have type
`"refresh"` is rejected by `authMiddleware` with exactly the 401 response of a
malformed token, and an unexpired, correctly signed token whose claims have
type `"access"` is rejected by the `/api/refresh` handler with 401 — the
`type` field is checked explicitly, not inferred from expiry. -/
theorem C2_token_type_separation (secret raw uid un rl : String) (now exp : Int)
    (st : AppState) (hfresh : now < exp) :
    authMiddleware secret now
        (.bearer (.signed { userId := uid, username := un, role := rl, type := "refresh" } secret exp)) =
      .reject 401 "Invalid or expired token" ∧
    authMiddleware secret now (.bearer (.malformed raw)) =
      .reject 401 "Invalid or expired token" ∧
    refreshHandler secret now st
        (some (.signed { userId := uid, username := un, role := rl, type := "access" } secret exp)) =
      .error 401 "Invalid refresh token" := by
  refine ⟨?_, rfl, ?_⟩
  · simp [authMiddleware, verifyToken, hfresh]
  · simp [refreshHandler, verifyToken, hfresh]

/-- Witness for C2 at a concrete secret, payload and time. -/
theorem C2_token_type_separation_witness :
    authMiddleware "k" 1
        (.bearer (.signed { userId := "u1", username := "alice", role := "user", type := "refresh" } "k" 2)) =
      .reject 401 "Invalid or expired token" ∧
    authMiddleware "k" 1 (.bearer (.malformed "garbage")) =
      .reject 401 "Invalid or expired token" ∧
    refreshHandler "k" 1 ⟨[], []⟩
        (some (.signed { userId := "u1", username := "alice", role := "user", type := "access" } "k" 2)) =
      .error 401 "Invalid refresh token" :=
  C2_token_type_separation "k" "garbage" "u1" "alice" "user" 1 2 ⟨[], []⟩ (by decide)

/-- Claim C3: a successful API-key issuance returns the raw secret exactly at
creation; the persisted row stores only the SHA-256 hash and the 12-character
display marker of the secret, neither of which equals the raw secret, and the
row the subsequent owner-scoped listing shows carries those derived fields
but not the raw secret. -/
theorem C3_one_time_secret (st : AppState) (userId name : String)
    (rl ed : Option Int) (bytes : List Nat) (newId : String) (now : Int)
    (hb : bytes.length = 24) (hn : name ≠ "") :
    ∃ record,
      (createApiKeyHandler st userId { name := some name, rateLimit := rl, expiresInDays := ed }
          bytes newId now).1 = .created record (generateApiKey bytes) ∧
      (createApiKeyHandler st userId { name := some name, rateLimit := rl, expiresInDays := ed }
          bytes newId now).2.apiKeys = st.apiKeys ++ [record] ∧
      record.keyHash = hashApiKey (generateApiKey bytes) ∧
      ApiKey.keyPrefix record = strTake 12 (generateApiKey bytes) ∧
      record.keyHash ≠ generateApiKey bytes ∧
      ApiKey.keyPrefix record ≠ generateApiKey bytes ∧
      record ∈ getApiKeysByUser
        (createApiKeyHandler st userId { name := some name, rateLimit := rl, expiresInDays := ed }
          bytes newId now).2.apiKeys userId := by
  have hraw : (generateApiKey bytes).length = 56 := generateApiKey_length bytes hb
  have hhash : hashApiKey (generateApiKey bytes) ≠ generateApiKey bytes := by
    intro h
    have hlen := congrArg String.length h
    rw [hraw] at hlen
    rw [show (hashApiKey (generateApiKey bytes)).length =
          (sha256Hex (strUtf8 (generateApiKey bytes))).length from rfl,
        sha256Hex_length] at hlen
    exact absurd hlen (by decide)
  have hpfx : strTake 12 (generateApiKey bytes) ≠ generateApiKey bytes := by
    intro h
    have hlen := congrArg String.length h
    rw [strTake_length, hraw] at hlen
    exact absurd hlen (by decide)
  have hrun : (createApiKeyHandler st userId
      { name := some name, rateLimit := rl, expiresInDays := ed } bytes newId now) =
      (.created
        { id := newId, userId := userId, name := name,
          keyHash := hashApiKey (generateApiKey bytes),
          keyPrefix := strTake 12 (generateApiKey bytes),
          permissions := [], rateLimit := rl.getD 1000,
          isActive := true, lastUsedAt := none,
          expiresAt := computeExpiresAt ed now, createdAt := now }
        (generateApiKey bytes),
       { st with apiKeys := st.apiKeys ++
          [{ id := newId, userId := userId, name := name,
             keyHash := hashApiKey (generateApiKey bytes),
             keyPrefix := strTake 12 (generateApiKey bytes),
             permissions := [], rateLimit := rl.getD 1000,
             isActive := true, lastUsedAt := none,
             expiresAt := computeExpiresAt ed now, createdAt := now }] }) := by
    unfold createApiKeyHandler createApiKeyRow
    simp [hn]
  refine ⟨_, by rw [hrun], by rw [hrun], rfl, rfl, hhash, hpfx, ?_⟩
  rw [hrun]
  show _ ∈ getApiKeysByUser (st.apiKeys ++ [_]) userId
  rw [getApiKeysByUser, List.mem_mergeSort, List.mem_filter]
  refine ⟨List.mem_append_right _ ?_, by simp⟩
  exact List.mem_singleton.mpr rfl

/-- Witness for C3 at a concrete state and 24 concrete random bytes. -/
theorem C3_one_time_secret_witness :
    ∃ record,
      (createApiKeyHandler sampleState "A" { name := some "k2", rateLimit := none, expiresInDays := none }
          (List.replicate 24 7) "id9" 3).1 = .created record (generateApiKey (List.replicate 24 7)) ∧
      (createApiKeyHandler sampleState "A" { name := some "k2", rateLimit := none, expiresInDays := none }
          (List.replicate 24 7) "id9" 3).2.apiKeys = sampleState.apiKeys ++ [record] ∧
      record.keyHash = hashApiKey (generateApiKey (List.replicate 24 7)) ∧
      ApiKey.keyPrefix record = strTake 12 (generateApiKey (List.replicate 24 7)) ∧
      record.keyHash ≠ generateApiKey (List.replicate 24 7) ∧
      ApiKey.keyPrefix record ≠ generateApiKey (List.replicate 24 7) ∧
      record ∈ getApiKeysByUser
        (createApiKeyHandler sampleState "A" { name := some "k2", rateLimit := none, expiresInDays := none }
          (List.replicate 24 7) "id9" 3).2.apiKeys "A" :=
  C3_one_time_secret sampleState "A" "k2" none none (List.replicate 24 7) "id9" 3
    (by decide) (by decide)

/-- Claim C4: no success response of register, login, `GET /api/user`,
`GET /api/admin/users` or `PATCH /api/admin/users/:id` carries a `password`
field in any returned user object. -/
theorem C4_password_stripped (secret : String) (now : Int) (newId hashedPassword : String)
    (comparePassword : String → String → Bool) (st : AppState) (rd : RegisterInput)
    (ld : LoginInput) (uid userRole pid : String) (patch : UserPatch) :
    "password" ∉ ((registerCore secret now newId hashedPassword st rd).1).userKeys ∧
    "password" ∉ (loginHandler secret now comparePassword st ld).userKeys ∧
    "password" ∉ (getUserHandler st uid).userKeys ∧
    "password" ∉ (adminGetUsersHandler st userRole).userKeys ∧
    "password" ∉ ((adminUpdateUserHandler st userRole pid patch).1).userKeys := by
  refine ⟨?_, ?_, ?_, ?_, ?_⟩
  · unfold registerCore
    split
    · simp [AuthResponse.userKeys]
    · split
      · simp [AuthResponse.userKeys]
      · simp [AuthResponse.userKeys, userWithoutPassword_keys]
  · unfold loginHandler
    split
    · simp [AuthResponse.userKeys]
    · split
      · simp [AuthResponse.userKeys]
      · split
        · simp [AuthResponse.userKeys]
        · simp [AuthResponse.userKeys, userWithoutPassword_keys]
  · unfold getUserHandler
    split
    · simp [UserResponse.userKeys]
    · simp [UserResponse.userKeys, userWithoutPassword_keys]
  · unfold adminGetUsersHandler
    split
    · simp [UsersListResponse.userKeys]
    · simp only [UsersListResponse.userKeys, List.map_map]
      intro hmem
      rw [List.mem_flatten] at hmem
      obtain ⟨l, hl, hp⟩ := hmem
      rw [List.mem_map] at hl
      obtain ⟨u, _, rfl⟩ := hl
      simp [Function.comp, userWithoutPassword_keys] at hp
  · unfold adminUpdateUserHandler
    split
    · simp [UserResponse.userKeys]
    · dsimp only
      split
      · simp [UserResponse.userKeys]
      · simp [UserResponse.userKeys, userWithoutPassword_keys]

/-- Claim C5: revoking an API key that does not exist or that belongs to a
different user yields 404 Not Found (not a 403) and leaves the stored keys
unchanged. -/
theorem C5_revoke_ownership (st : AppState) (requester id : String)
    (h : getApiKey st.apiKeys id = none ∨
         ∃ k, getApiKey st.apiKeys id = some k ∧ k.userId ≠ requester) :
    deleteApiKeyHandler st requester id = (.error 404 "API key not found", st) := by
  unfold deleteApiKeyHandler
  rcases h with h | ⟨k, hk, hne⟩
  · rw [h]
  · rw [hk]
    simp [hne]

/-- Witness for C5: a key owned by user `A` is revoked by user `B` and the
request is rejected as Not Found even though the key exists. -/
theorem C5_revoke_ownership_witness :
    deleteApiKeyHandler
        ⟨[], [{ id := "k1", userId := "A", name := "n", keyHash := "h", keyPrefix := "p",
                permissions := [], rateLimit := 100, isActive := true, lastUsedAt := none,
                expiresAt := none, createdAt := 0 }]⟩ "B" "k1" =
      (.error 404 "API key not found",
       ⟨[], [{ id := "k1", userId := "A", name := "n", keyHash := "h", keyPrefix := "p",
               permissions := [], rateLimit := 100, isActive := true, lastUsedAt := none,
               expiresAt := none, createdAt := 0 }]⟩) :=
  C5_revoke_ownership _ "B" "k1"
    (Or.inr ⟨{ id := "k1", userId := "A", name := "n", keyHash := "h", keyPrefix := "p",
               permissions := [], rateLimit := 100, isActive := true, lastUsedAt := none,
               expiresAt := none, createdAt := 0 }, by decide, by decide⟩)

/-- Claim C6: revocation of an existing key by its owner answers 204, flips
`isActive` to false on that row while changing none of its other fields,
leaves every other row untouched, removes no row, and the revoked key still
appears in the key listing of the owner. -/
theorem C6_soft_revocation (st : AppState) (owner id : String) (k : ApiKey)
    (hk : getApiKey st.apiKeys id = some k) (hown : k.userId = owner) :
    (deleteApiKeyHandler st owner id).1 = .noContent ∧
    (deleteApiKeyHandler st owner id).2.apiKeys.length = st.apiKeys.length ∧
    (deleteApiKeyHandler st owner id).2.apiKeys.filter (fun j => j.id != id) =
      st.apiKeys.filter (fun j => j.id != id) ∧
    { k with isActive := false } ∈ (deleteApiKeyHandler st owner id).2.apiKeys ∧
    { k with isActive := false } ∈
      getApiKeysByUser (deleteApiKeyHandler st owner id).2.apiKeys owner := by
  have hk' : st.apiKeys.find? (fun j => j.id == id) = some k := hk
  have hid0 := List.find?_some hk'
  have hid : (k.id == id) = true := hid0
  have hmem : k ∈ st.apiKeys := List.mem_of_find?_eq_some hk'
  have hstep : deleteApiKeyHandler st owner id =
      (.noContent, { st with apiKeys := deleteApiKey st.apiKeys id }) := by
    unfold deleteApiKeyHandler
    rw [hk]
    simp [hown]
  have hmem2 : { k with isActive := false } ∈ deleteApiKey st.apiKeys id := by
    have := List.mem_map_of_mem
      (fun j => if j.id == id then { j with isActive := false } else j) hmem
    simpa [deleteApiKey, hid] using this
  refine ⟨by rw [hstep], ?_, ?_, ?_, ?_⟩
  · rw [hstep]
    simp [deleteApiKey]
  · rw [hstep]
    exact filter_ne_deleteApiKey st.apiKeys id
  · rw [hstep]
    exact hmem2
  · rw [hstep]
    show _ ∈ getApiKeysByUser (deleteApiKey st.apiKeys id) owner
    rw [getApiKeysByUser, List.mem_mergeSort, List.mem_filter]
    exact ⟨hmem2, by simp [hown]⟩

/-- Witness for C6 at a concrete one-key state. -/
theorem C6_soft_revocation_witness :
    (deleteApiKeyHandler sampleState "A" "k1").1 = .noContent ∧
    (deleteApiKeyHandler sampleState "A" "k1").2.apiKeys.length =
      sampleState.apiKeys.length ∧
    (deleteApiKeyHandler sampleState "A" "k1").2.apiKeys.filter
        (fun j => j.id != "k1") =
      sampleState.apiKeys.filter (fun j => j.id != "k1") ∧
    { sampleKey with isActive := false } ∈
      (deleteApiKeyHandler sampleState "A" "k1").2.apiKeys ∧
    { sampleKey with isActive := false } ∈
      getApiKeysByUser (deleteApiKeyHandler sampleState "A" "k1").2.apiKeys "A" :=
  C6_soft_revocation sampleState "A" "k1" sampleKey (by decide) (by decide)

/-- Claim C7: when a user with the requested username already exists, a second
registration with that username — whatever its email — fails with 400
`Username already exists` and the stored state is unchanged. -/
theorem C7_duplicate_username (secret : String) (now : Int) (newId hashedPassword : String)
    (st : AppState) (d : RegisterInput)
    (h : ∃ u ∈ st.users, u.username = d.username) :
    registerCore secret now newId hashedPassword st d =
      (.error 400 "Username already exists", st) := by
  have hsome : (getUserByUsername st.users d.username).isSome := by
    rw [getUserByUsername, List.find?_isSome]
    obtain ⟨u, hu, he⟩ := h
    exact ⟨u, hu, by simp [he]⟩
  obtain ⟨u, hu⟩ := Option.isSome_iff_exists.mp hsome
  unfold registerCore
  rw [hu]

/-- Witness for C7: `bob` registers again with a different email. -/
theorem C7_duplicate_username_witness :
    registerCore "k" 9 "u2" "hash2"
        ⟨[{ id := "u1", username := "bob", email := "b@x.com", password := "hash1",
            role := "user", isActive := true, createdAt := 0 }], []⟩
        { username := "bob", email := "other@x.com", password := "secret2" } =
      (.error 400 "Username already exists",
       ⟨[{ id := "u1", username := "bob", email := "b@x.com", password := "hash1",
           role := "user", isActive := true, createdAt := 0 }], []⟩) :=
  C7_duplicate_username "k" 9 "u2" "hash2" _ _
    ⟨{ id := "u1", username := "bob", email := "b@x.com", password := "hash1",
       role := "user", isActive := true, createdAt := 0 }, by decide, by decide⟩

/-- Counterexample to claim C8 as stated: at `expiresInDays = 0` the stored
expiry is `null`, not the issuance time plus `0 × 86400` seconds. -/
theorem C8_counterexample :
    computeExpiresAt (some 0) 1000 = none ∧
    computeExpiresAt (some 0) 1000 ≠ some (1000 + 0 * (24 * 60 * 60 * 1000)) := by
  refine ⟨rfl, ?_⟩
  decide

/-- Claim C8, amended: for every API-key issuance that supplies a nonzero
`expiresInDays`, the stored `expiresAt` is the issuance time plus
`expiresInDays` days (in milliseconds, `expiresInDays * 24*60*60*1000`); when
no day count is supplied, `expiresAt` is null. -/
theorem C8_expiry_computation (st : AppState) (userId name : String) (rl : Option Int)
    (d : Int) (bytes : List Nat) (newId : String) (now : Int)
    (hn : name ≠ "") (hd : d ≠ 0) :
    computeExpiresAt (some d) now = some (now + d * (24 * 60 * 60 * 1000)) ∧
    computeExpiresAt none now = none ∧
    ((createApiKeyHandler st userId { name := some name, rateLimit := rl, expiresInDays := some d }
        bytes newId now).1.recordOf).map ApiKey.expiresAt =
      some (some (now + d * (24 * 60 * 60 * 1000))) ∧
    ((createApiKeyHandler st userId { name := some name, rateLimit := rl, expiresInDays := none }
        bytes newId now).1.recordOf).map ApiKey.expiresAt = some none := by
  have harith : d * 24 * 60 * 60 * 1000 = d * (24 * 60 * 60 * 1000) := by ring
  refine ⟨by simp [computeExpiresAt, hd]; ring, rfl, ?_, ?_⟩
  · unfold createApiKeyHandler
    simp [hn, CreateKeyResponse.recordOf, computeExpiresAt, hd, harith]
  · unfold createApiKeyHandler
    simp [hn, CreateKeyResponse.recordOf, computeExpiresAt]

/-- Witness for the amended C8 at a concrete issuance with a 7-day expiry. -/
theorem C8_expiry_computation_witness :
    computeExpiresAt (some 7) 1000 = some (1000 + 7 * (24 * 60 * 60 * 1000)) ∧
    computeExpiresAt none 1000 = none ∧
    ((createApiKeyHandler sampleState "A" { name := some "k3", rateLimit := none, expiresInDays := some 7 }
        (List.replicate 24 7) "id9" 1000).1.recordOf).map ApiKey.expiresAt =
      some (some (1000 + 7 * (24 * 60 * 60 * 1000))) ∧
    ((createApiKeyHandler sampleState "A" { name := some "k3", rateLimit := none, expiresInDays := none }
        (List.replicate 24 7) "id9" 1000).1.recordOf).map ApiKey.expiresAt = some none :=
  C8_expiry_computation sampleState "A" "k3" none 7 (List.replicate 24 7) "id9" 1000
    (by decide) (by decide)

/-- Claim C9: an issuance that supplies `expiresInDays = 0` stores a null
expiry — the JS falsiness check treats `0` exactly like an omitted day count,
so the whole handler behaves identically on the two bodies. -/
theorem C9_zero_days_never_expires (st : AppState) (userId : String) (nm : Option String)
    (rl : Option Int) (bytes : List Nat) (newId : String) (now : Int) :
    computeExpiresAt (some 0) now = none ∧
    createApiKeyHandler st userId { name := nm, rateLimit := rl, expiresInDays := some 0 }
        bytes newId now =
      createApiKeyHandler st userId { name := nm, rateLimit := rl, expiresInDays := none }
        bytes newId now := by
  refine ⟨rfl, ?_⟩
  unfold createApiKeyHandler
  cases nm with
  | none => rfl
  | some name =>
    by_cases h : name = "" <;> simp [h, computeExpiresAt]

/-- Claim C10: a second revocation of the same key by its owner again answers
204 and leaves the stored state exactly as after the first revocation. -/
theorem C10_revoke_idempotent (st : AppState) (owner id : String) (k : ApiKey)
    (hk : getApiKey st.apiKeys id = some k) (hown : k.userId = owner) :
    (deleteApiKeyHandler st owner id).1 = .noContent ∧
    (deleteApiKeyHandler (deleteApiKeyHandler st owner id).2 owner id).1 = .noContent ∧
    (deleteApiKeyHandler (deleteApiKeyHandler st owner id).2 owner id).2 =
      (deleteApiKeyHandler st owner id).2 := by
  have hk' : st.apiKeys.find? (fun j => j.id == id) = some k := hk
  have hid0 := List.find?_some hk'
  have hid : (k.id == id) = true := hid0
  have hstep : deleteApiKeyHandler st owner id =
      (.noContent, { st with apiKeys := deleteApiKey st.apiKeys id }) := by
    unfold deleteApiKeyHandler
    rw [hk]
    simp [hown]
  have hk2 : getApiKey (deleteApiKey st.apiKeys id) id =
      some { k with isActive := false } := by
    have hideq : k.id = id := by simpa using hid
    rw [getApiKey_deleteApiKey, hk]
    simp [hideq]
  have hstep2 : deleteApiKeyHandler { st with apiKeys := deleteApiKey st.apiKeys id } owner id =
      (.noContent, { st with apiKeys := deleteApiKey (deleteApiKey st.apiKeys id) id }) := by
    unfold deleteApiKeyHandler
    rw [show ({ st with apiKeys := deleteApiKey st.apiKeys id } : AppState).apiKeys =
          deleteApiKey st.apiKeys id from rfl, hk2]
    simp [hown]
  refine ⟨by rw [hstep], ?_, ?_⟩
  · rw [hstep, hstep2]
  · rw [hstep, hstep2]
    simp [deleteApiKey_idem]

/-- Witness for C10 at a concrete one-key state. -/
theorem C10_revoke_idempotent_witness :
    (deleteApiKeyHandler sampleState "A" "k1").1 = .noContent ∧
    (deleteApiKeyHandler (deleteApiKeyHandler sampleState "A" "k1").2 "A" "k1").1 =
      .noContent ∧
    (deleteApiKeyHandler (deleteApiKeyHandler sampleState "A" "k1").2 "A" "k1").2 =
      (deleteApiKeyHandler sampleState "A" "k1").2 :=
  C10_revoke_idempotent sampleState "A" "k1" sampleKey (by decide) (by decide)
